import Mathlib

/-!
Verification of the image-preview loading and caching engine of the medars
terminal image browser. The definitions below are a shallow embedding of
the Rust source: the central `App` state machine from `src/ui/app.rs`
(event drain, selection controller, preloader, background load starts,
status derivation) and the terminal setup/teardown control flow of
`RatatuiUI::run` from `src/ui/ratatui_ui.rs`.

Modelling conventions: paths are strings, the three `HashSet<String>`
fields become duplicate-free lists, the opaque `StatefulProtocol` handle
becomes a `Nat`, the optional `Picker` becomes a `Bool` (capability
present or not), the mpsc channel becomes an explicit list of events
drained per frame, and a `tokio::spawn` of a decode task is recorded in a
`requests` trace field as the pair (path, tier).
-/

set_option maxHeartbeats 1000000

namespace Medars

/-- Decode tier of a spawned load: `App::start_background_image_load`
spawns a normal-tier decode, `App::start_priority_image_load` spawns a
priority-tier decode. -/
inductive Tier where
  | normal
  | priority
deriving DecidableEq, Repr

/-- Mirror of the Rust enum `ImageLoadEvent` in `src/ui/app.rs`: the two
message kinds carried by the mpsc channel. The opaque
`StatefulProtocol` handle is modelled as a `Nat`. -/
inductive ImageLoadEvent where
  | loadComplete (file_path : String) (protocol : Nat)
  | loadError (file_path : String) (error : String)
deriving DecidableEq, Repr

/-- Mirror of the Rust enum `ImageLoadStatus` in `src/ui/image_panel.rs`. -/
inductive ImageLoadStatus where
  | notImage
  | loading
  | loaded
  | failed
  | unsupportedTerminal
deriving DecidableEq, Repr

/-- Split a character list at every occurrence of `sep` (the list of
fragments, like Rust `split`). -/
def splitOnChar (sep : Char) : List Char → List (List Char)
  | [] => [[]]
  | c :: cs =>
    let r := splitOnChar sep cs
    if c = sep then [] :: r
    else
      match r with
      | [] => [[c]]
      | h :: t => (c :: h) :: t

/-- The characters after the last `/`, i.e. the file-name component used
by Rust `Path::extension` (the whole string when there is no separator). -/
def fileNameChars (cs : List Char) : List Char :=
  cs.foldl (fun acc c => if c = '/' then [] else acc ++ [c]) []

/-- Rust `Path::extension` on the file-name component: the fragment after
the last dot, none when there is no dot or when the only dot is the
leading one of a hidden file. -/
def extensionOf (name : List Char) : Option (List Char) :=
  let parts := splitOnChar '.' name
  if 2 ≤ parts.length then
    if parts.headD [] = [] then
      if 3 ≤ parts.length then some (parts.getLastD []) else none
    else some (parts.getLastD [])
  else none

/-- Mirror of `App::is_image_file`: the lowercased extension is one of the
eight recognized raster formats. -/
def is_image_file (p : String) : Bool :=
  match extensionOf (fileNameChars p.data) with
  | some ext =>
      let l := ext.map Char.toLower
      l = "jpg".data ∨ l = "jpeg".data ∨ l = "png".data ∨ l = "gif".data ∨
      l = "bmp".data ∨ l = "tiff".data ∨ l = "tif".data ∨ l = "webp".data
  | none => false

/-- Mirror of Rust `dir.join(file).to_string_lossy().to_string()` for the
simple relative file names this model manipulates. -/
def joinPath (dir file : String) : String :=
  dir ++ "/" ++ file

/-- Model of HashSet insert on the list model of a path set: prepend
unless the path is already a member. -/
def insertPath (l : List String) (p : String) : List String :=
  if p ∈ l then l else p :: l

/-- Model of HashSet remove on the list model of a path set. -/
def removePath (l : List String) (p : String) : List String :=
  l.filter (fun q => decide (q ≠ p))

/-- The engine state: mirror of the Rust struct `App` in `src/ui/app.rs`,
restricted to the fields the loading and caching engine reads or writes.
The channel endpoints are replaced by explicit event lists fed to the
drain, timing fields are dropped, and `requests` is the trace of decode
tasks spawned so far (in spawn order). -/
structure App where
  image_state : Option Nat
  image_path : Option String
  files : List String
  selected : Nat
  previous_selected : Nat
  cached_metadata_text : String
  mid_scroll : Nat
  loading_images : List String
  failed_images : List String
  loaded_images : List String
  pending_current_load : Option String
  last_loaded_path : Option String
  image_picker : Bool
  requests : List (String × Tier)
deriving DecidableEq, Repr

/-- Mirror of `App::new` (given whether `Picker::from_query_stdio`
succeeded): empty sets, selection 0, previous selection `usize::MAX` to
force the initial load. -/
def App.new (picker : Bool) : App :=
  { image_state := none
    image_path := none
    files := []
    selected := 0
    previous_selected := 18446744073709551615
    cached_metadata_text := ""
    mid_scroll := 0
    loading_images := []
    failed_images := []
    loaded_images := []
    pending_current_load := none
    last_loaded_path := none
    image_picker := picker
    requests := [] }

/-- Mirror of `App::start_background_image_load`: no-op when the path is
already loading or no picker is available; otherwise remove the path from
Failed and Loaded, insert it into Loading, and spawn a normal-tier decode
task. -/
def start_background_image_load (file_path : String) (s : App) : App :=
  if file_path ∈ s.loading_images then s
  else if s.image_picker = false then s
  else
    { s with
      failed_images := removePath s.failed_images file_path
      loaded_images := removePath s.loaded_images file_path
      loading_images := insertPath s.loading_images file_path
      requests := s.requests ++ [(file_path, Tier.normal)] }

/-- Mirror of `App::start_priority_image_load`: no-op when the path is
already loading or no picker is available; otherwise remove the path from
Failed only (the Loaded cache entry is kept), insert it into Loading, and
spawn a priority-tier decode task. -/
def start_priority_image_load (file_path : String) (s : App) : App :=
  if file_path ∈ s.loading_images then s
  else if s.image_picker = false then s
  else
    { s with
      failed_images := removePath s.failed_images file_path
      loading_images := insertPath s.loading_images file_path
      requests := s.requests ++ [(file_path, Tier.priority)] }

/-- The body of the `while let Ok(event)` loop of
`App::process_image_load_events`, applied to one drained event. -/
def processOneEvent (s : App) (ev : ImageLoadEvent) : App :=
  match ev with
  | ImageLoadEvent.loadComplete file_path protocol =>
    let s1 := { s with
      loaded_images := insertPath s.loaded_images file_path
      last_loaded_path := some file_path }
    let s2 :=
      if s1.image_path = some file_path then
        { s1 with image_state := some protocol, pending_current_load := none }
      else s1
    { s2 with loading_images := removePath s2.loading_images file_path }
  | ImageLoadEvent.loadError file_path _ =>
    let s1 := { s with
      failed_images := insertPath s.failed_images file_path
      loading_images := removePath s.loading_images file_path }
    if s1.image_path = some file_path then
      { s1 with pending_current_load := none }
    else s1

/-- Mirror of `App::process_image_load_events`: drain the queued events in
order, applying the loop body to each. -/
def process_image_load_events (s : App) (evs : List ImageLoadEvent) : App :=
  evs.foldl processOneEvent s

/-- Mirror of `App::update_selection`. The external metadata provider
(`ImageUtils::get_metadata_for_display`) is passed in as the oracle
`meta`, taking the selected file name and joined path. -/
def update_selection (meta : String → String → String) (dir : String) (s : App) : App :=
  if s.selected = s.previous_selected then s
  else
    let s' :=
      if s.files ≠ [] ∧ s.selected < s.files.length then
        let selected_file := s.files.getD s.selected ""
        let file_path := joinPath dir selected_file
        let s1 := { s with
          cached_metadata_text := meta selected_file file_path
          image_path := some file_path }
        if is_image_file file_path then
          let should_clear :=
            s1.last_loaded_path ≠ some file_path ∨ file_path ∉ s1.loaded_images
          let s2 := if should_clear then { s1 with image_state := none } else s1
          if file_path ∈ s2.loaded_images then
            if file_path ∉ s2.loading_images then
              start_priority_image_load file_path
                { s2 with pending_current_load := some file_path }
            else s2
          else if file_path ∉ s2.loading_images ∧ file_path ∉ s2.failed_images then
            start_background_image_load file_path
              { s2 with pending_current_load := some file_path }
          else if file_path ∈ s2.failed_images then
            let s3 := { s2 with failed_images := removePath s2.failed_images file_path }
            if file_path ∉ s3.loading_images then
              start_background_image_load file_path
                { s3 with pending_current_load := some file_path }
            else s3
          else s2
        else s1
      else
        { s with
          cached_metadata_text := "No files available"
          image_path := none
          image_state := none }
    { s' with previous_selected := s'.selected, mid_scroll := 0 }

/-- The index window scanned by `App::preload_nearby_images`: from
`selected - 2` (saturating) up to `min (selected + 3) files.length`
(exclusive). -/
def windowIndices (s : App) : List Nat :=
  List.range' (s.selected - 2) (min (s.selected + 2 + 1) s.files.length - (s.selected - 2))

/-- The `for i in start..end` loop of `App::preload_nearby_images`: skip
the selection itself and non-image files, start a background load for the
first neighbor in no tracking set while under the concurrency cap, then
break. -/
def preloadLoop (dir : String) (s : App) : List Nat → App
  | [] => s
  | i :: rest =>
    if i ≠ s.selected then
      let file_path := joinPath dir (s.files.getD i "")
      if is_image_file file_path then
        if file_path ∉ s.loading_images ∧ file_path ∉ s.failed_images ∧
           file_path ∉ s.loaded_images ∧ s.loading_images.length < 2 then
          start_background_image_load file_path s
        else preloadLoop dir s rest
      else preloadLoop dir s rest
    else preloadLoop dir s rest

/-- Mirror of `App::preload_nearby_images`: early return on an empty file
list, on an outstanding pending-current load, or when the concurrency cap
(2) is already reached; otherwise scan the window for at most one new
background load, then run cache maintenance (clear Failed when above 20
entries, prune Loaded to the current directory listing when above 50). -/
def preload_nearby_images (dir : String) (s : App) : App :=
  if s.files = [] then s
  else if s.pending_current_load.isSome then s
  else if 2 ≤ s.loading_images.length then s
  else
    let s1 := preloadLoop dir s (windowIndices s)
    let s2 := if 20 < s1.failed_images.length then { s1 with failed_images := [] } else s1
    if 50 < s2.loaded_images.length then
      let current_files := s2.files.map (joinPath dir)
      { s2 with loaded_images := s2.loaded_images.filter (fun p => decide (p ∈ current_files)) }
    else s2

/-- Mirror of `App::get_image_load_status`: the pure status derivation for
the currently selected path. -/
def get_image_load_status (s : App) : ImageLoadStatus :=
  match s.image_path with
  | some current_path =>
    if ¬ is_image_file current_path then ImageLoadStatus.notImage
    else if s.image_picker = false then ImageLoadStatus.unsupportedTerminal
    else if current_path ∈ s.loading_images then ImageLoadStatus.loading
    else if current_path ∈ s.failed_images then ImageLoadStatus.failed
    else if s.image_state.isSome then ImageLoadStatus.loaded
    else ImageLoadStatus.loading
  | none => ImageLoadStatus.notImage

/-- The first window entry eligible for a preload start, as the amended
claim describes the loop of `App::preload_nearby_images`: scanning the
window indices in order, skipping the selection, the first image-type
path that is in none of Loading, Failed, Loaded. -/
def firstEligibleAux (dir : String) (s : App) : List Nat → Option String
  | [] => none
  | i :: rest =>
    if i ≠ s.selected then
      let p := joinPath dir (s.files.getD i "")
      if is_image_file p ∧ p ∉ s.loading_images ∧ p ∉ s.failed_images ∧
         p ∉ s.loaded_images then some p
      else firstEligibleAux dir s rest
    else firstEligibleAux dir s rest

/-- The first eligible image path of the whole preload window. -/
def firstEligibleImagePath (dir : String) (s : App) : Option String :=
  firstEligibleAux dir s (windowIndices s)

/-- The load target as claim C7 words it: the first path in the window of
2 entries on each side of the selection (clipped to list bounds,
excluding the selection itself) that is in none of Loading, Failed, or
Loaded — with no image-type requirement. -/
def firstWindowPathNotInSets (dir : String) (s : App) : Option String :=
  (((windowIndices s).filter (fun i => decide (i ≠ s.selected))).map
      (fun i => joinPath dir (s.files.getD i ""))).find?
    (fun p => decide (p ∉ s.loading_images ∧ p ∉ s.failed_images ∧ p ∉ s.loaded_images))

/-- The status derivation as the spec words it (§4.5): the precedence
list NotImage, UnsupportedTerminal, Loading, Failed, Loaded, Loading,
evaluated for the selected path. -/
def statusSpec (s : App) (p : String) : ImageLoadStatus :=
  if ¬ is_image_file p then ImageLoadStatus.notImage
  else if ¬ s.image_picker then ImageLoadStatus.unsupportedTerminal
  else if p ∈ s.loading_images then ImageLoadStatus.loading
  else if p ∈ s.failed_images then ImageLoadStatus.failed
  else if s.image_state.isSome then ImageLoadStatus.loaded
  else ImageLoadStatus.loading

/-! ### Control-flow model of `RatatuiUI::run` (terminal-mode handling) -/

/-- Terminal modes managed by `RatatuiUI::run`: whether raw input mode is
enabled and whether the alternate screen buffer is active. -/
structure TermModes where
  raw : Bool
  alt : Bool
deriving DecidableEq, Repr

/-- What one iteration of the browser loop of `RatatuiUI::run` does, as
seen by the terminal-mode model: the `terminal.draw(..)?` call fails, a
quit key is received, or the frame passes uneventfully. -/
inductive FrameOutcome where
  | drawErr
  | keyQuit
  | uneventful
deriving DecidableEq, Repr

/-- Result value of `RatatuiUI::run`: success or a propagated error. -/
inductive RunResult where
  | ok
  | err
deriving DecidableEq, Repr

/-- The cleanup code duplicated at the exits of `RatatuiUI::run`:
`disable_raw_mode` followed by `LeaveAlternateScreen`. -/
def restoreTerminal (_ : TermModes) : TermModes :=
  { raw := false, alt := false }

/-- The browser `while running` loop of `RatatuiUI::run`, restricted to
its effect on the terminal modes. A failing `terminal.draw(..)?`
propagates immediately with the current modes untouched; a quit key
clears `running`, so the loop exits and the cleanup below it runs; any
other frame changes nothing. A `none` result means the supplied trace
ended before the loop exited. -/
def runBrowserLoop (t : TermModes) : List FrameOutcome → Option RunResult × TermModes
  | [] => (none, t)
  | f :: rest =>
    match f with
    | FrameOutcome.drawErr => (some RunResult.err, t)
    | FrameOutcome.keyQuit => (some RunResult.ok, restoreTerminal t)
    | FrameOutcome.uneventful => runBrowserLoop t rest

/-- Control-flow model of `RatatuiUI::run` in directory-browser mode:
enable raw mode, enter the alternate screen (`?` propagation on failure),
construct the `Terminal` (explicit restore-and-return on failure), then
run the browser loop. -/
def ratatui_run (enterAltOk newTerminalOk : Bool) (frames : List FrameOutcome) :
    Option RunResult × TermModes :=
  let t0 : TermModes := { raw := true, alt := false }
  if enterAltOk = false then (some RunResult.err, t0)
  else
    let t1 : TermModes := { raw := true, alt := true }
    if newTerminalOk = false then (some RunResult.err, restoreTerminal t1)
    else runBrowserLoop t1 frames

/-! ### Concrete states used by scenario runs, witnesses and counterexamples -/

/-- Modelled from the spec: the per-frame driver of the render loop
(§4.6) is not present under src (no caller of the `App` methods survives
there), so one engine frame is composed per the spec's tick order — drain
events, run the selection controller with the selection the input handler
chose at the end of the previous frame, then run the preloader. The
metadata provider does not affect the load engine and is instantiated
with the empty-text provider. -/
def frameStep (dir : String) (evs : List ImageLoadEvent) (sel : Nat) (s : App) : App :=
  preload_nearby_images dir
    (update_selection (fun _ _ => "") dir
      { process_image_load_events s evs with selected := sel })

/-- Scenario C starting state: four image files, graphics capability
available, fresh caches. -/
def scenarioCApp : App :=
  { App.new true with files := ["a.jpg", "b.jpg", "c.jpg", "d.jpg"] }

/-- The state after the four Scenario C frames 0 → 1 → 2 → 3, with no
decode completing in between (empty event drains). -/
def scenarioCRun : App :=
  frameStep "d" [] 3 (frameStep "d" [] 2 (frameStep "d" [] 1 (frameStep "d" [] 0 scenarioCApp)))

/-- Counterexample state for the C7 wording: the first window path in no
tracking set is the non-image neighbor a.txt. -/
def c7App : App :=
  { App.new true with files := ["x.jpg", "a.txt", "b.jpg"] }

/-- Counterexample state for C8: Failed holds 21 entries, but two loads
are in flight, so the next preloader pass returns at the concurrency-cap
check before reaching cache maintenance. -/
def c8App : App :=
  { App.new true with
    files := ["a.jpg"]
    loading_images := ["d/p.jpg", "d/q.jpg"]
    failed_images := ["f01", "f02", "f03", "f04", "f05", "f06", "f07",
      "f08", "f09", "f10", "f11", "f12", "f13", "f14", "f15", "f16",
      "f17", "f18", "f19", "f20", "f21"] }

/-- Witness state for the amended C8: maintenance is reachable (one
loading slot free, nothing pending) with 21 failed entries and 51 loaded
entries of which only d/a.jpg is still in the directory listing. -/
def c8ReachableApp : App :=
  { App.new true with
    files := ["a.jpg"]
    loading_images := ["d/z.jpg"]
    failed_images := [
      "g01", "g02", "g03", "g04", "g05", "g06", "g07", "g08", "g09", "g10",
      "g11", "g12", "g13", "g14", "g15", "g16", "g17", "g18", "g19", "g20",
      "g21"]
    loaded_images := [
      "d/a.jpg", "l01", "l02", "l03", "l04", "l05", "l06", "l07", "l08",
      "l09", "l10", "l11", "l12", "l13", "l14", "l15", "l16", "l17", "l18",
      "l19", "l20", "l21", "l22", "l23", "l24", "l25", "l26", "l27", "l28",
      "l29", "l30", "l31", "l32", "l33", "l34", "l35", "l36", "l37", "l38",
      "l39", "l40", "l41", "l42", "l43", "l44", "l45", "l46", "l47", "l48",
      "l49", "l50"] }

/-- A small in-flight state shared by several witnesses: b.jpg is
loading, c.jpg previously failed, a.jpg is cached and was displayed
last. -/
def demoApp : App :=
  { App.new true with
    files := ["a.jpg", "b.jpg", "c.jpg"]
    image_path := some "d/b.jpg"
    loading_images := ["d/b.jpg"]
    failed_images := ["d/c.jpg"]
    loaded_images := ["d/a.jpg"]
    last_loaded_path := some "d/a.jpg"
    previous_selected := 1
    selected := 0 }

/-- The mutual-exclusion invariant of the Load State Tracker: no path is
simultaneously a member of Loading and of Failed. -/
def LoadingFailedExclusive (s : App) : Prop :=
  ∀ p ∈ s.loading_images, p ∉ s.failed_images

instance (s : App) : Decidable (LoadingFailedExclusive s) := by
  unfold LoadingFailedExclusive
  infer_instance

/-! ### Basic lemmas about the path-set operations -/

@[simp]
theorem mem_insertPath {l : List String} {p q : String} :
    q ∈ insertPath l p ↔ q = p ∨ q ∈ l := by
  unfold insertPath
  split
  · rename_i hp
    constructor
    · exact Or.inr
    · rintro (rfl | h)
      · exact hp
      · assumption
  · exact List.mem_cons

@[simp]
theorem mem_removePath {l : List String} {p q : String} :
    q ∈ removePath l p ↔ q ∈ l ∧ q ≠ p := by
  unfold removePath
  simp

theorem removePath_of_not_mem {l : List String} {p : String} (h : p ∉ l) :
    removePath l p = l := by
  unfold removePath
  apply List.filter_eq_self.mpr
  intro a ha
  simp only [decide_eq_true_eq]
  rintro rfl
  exact h ha

theorem length_insertPath_le {l : List String} {p : String} :
    (insertPath l p).length ≤ l.length + 1 := by
  unfold insertPath
  split
  · omega
  · simp

theorem length_removePath_le {l : List String} {p : String} :
    (removePath l p).length ≤ l.length :=
  List.length_filter_le _ _

theorem exclusive_of_eq {s t : App}
    (hl : t.loading_images = s.loading_images)
    (hf : t.failed_images = s.failed_images)
    (h : LoadingFailedExclusive s) : LoadingFailedExclusive t := by
  intro p hp
  rw [hl] at hp
  rw [hf]
  exact h p hp

theorem exclusive_mono {s t : App} (h : LoadingFailedExclusive s)
    (hl : t.loading_images = s.loading_images)
    (hf : ∀ q, q ∈ t.failed_images → q ∈ s.failed_images) :
    LoadingFailedExclusive t := by
  intro q hq
  rw [hl] at hq
  intro hqf
  exact h q hq (hf q hqf)

theorem exclusive_start_background {s : App} (h : LoadingFailedExclusive s)
    (p : String) : LoadingFailedExclusive (start_background_image_load p s) := by
  unfold start_background_image_load
  split
  · exact h
  split
  · exact h
  intro q hq
  simp only [mem_insertPath] at hq
  rcases hq with rfl | hq
  · simp [mem_removePath]
  · simp only [mem_removePath, ne_eq, not_and, not_not]
    intro hqf
    exact absurd hqf (h q hq)

theorem exclusive_start_priority {s : App} (h : LoadingFailedExclusive s)
    (p : String) : LoadingFailedExclusive (start_priority_image_load p s) := by
  unfold start_priority_image_load
  split
  · exact h
  split
  · exact h
  intro q hq
  simp only [mem_insertPath] at hq
  rcases hq with rfl | hq
  · simp [mem_removePath]
  · simp only [mem_removePath, ne_eq, not_and, not_not]
    intro hqf
    exact absurd hqf (h q hq)

theorem exclusive_processOneEvent {s : App} (h : LoadingFailedExclusive s)
    (ev : ImageLoadEvent) : LoadingFailedExclusive (processOneEvent s ev) := by
  cases ev with
  | loadComplete fp protocol =>
    unfold processOneEvent
    dsimp only
    split
    · intro q hq
      simp only [mem_removePath] at hq
      exact h q hq.1
    · intro q hq
      simp only [mem_removePath] at hq
      exact h q hq.1
  | loadError fp e =>
    unfold processOneEvent
    dsimp only
    split
    · intro q hq
      simp only [mem_removePath] at hq
      simp only [mem_insertPath, not_or]
      exact ⟨hq.2, h q hq.1⟩
    · intro q hq
      simp only [mem_removePath] at hq
      simp only [mem_insertPath, not_or]
      exact ⟨hq.2, h q hq.1⟩

theorem exclusive_process_events {s : App} (h : LoadingFailedExclusive s)
    (evs : List ImageLoadEvent) :
    LoadingFailedExclusive (process_image_load_events s evs) := by
  induction evs generalizing s with
  | nil => exact h
  | cons ev rest ih =>
    exact ih (exclusive_processOneEvent h ev)

theorem exclusive_update_selection {s : App} (h : LoadingFailedExclusive s)
    (meta : String → String → String) (dir : String) :
    LoadingFailedExclusive (update_selection meta dir s) := by
  unfold update_selection
  dsimp only
  split_ifs <;>
    first
    | exact fun q hq => h q hq
    | (refine fun q hq => exclusive_start_priority ?_ _ q hq
       exact fun r hr => h r hr)
    | (refine fun q hq => exclusive_start_background ?_ _ q hq
       exact fun r hr => h r hr)
    | (refine fun q hq => exclusive_start_background ?_ _ q hq
       exact fun r hr hrf => h r hr ((mem_removePath.mp hrf).1))
    | exact fun q hq hqf => h q hq ((mem_removePath.mp hqf).1)

theorem exclusive_preloadLoop {s : App} (h : LoadingFailedExclusive s)
    (dir : String) (l : List Nat) : LoadingFailedExclusive (preloadLoop dir s l) := by
  induction l with
  | nil => exact h
  | cons i rest ih =>
    unfold preloadLoop
    dsimp only
    split_ifs <;> first
      | exact exclusive_start_background h _
      | exact ih

theorem exclusive_preload {s : App} (h : LoadingFailedExclusive s)
    (dir : String) : LoadingFailedExclusive (preload_nearby_images dir s) := by
  unfold preload_nearby_images
  dsimp only
  have h1 := exclusive_preloadLoop h dir (windowIndices s)
  split_ifs <;>
    first
    | exact fun q hq => h q hq
    | exact fun q hq => h1 q hq
    | exact fun q hq hqf => absurd hqf (List.not_mem_nil q)

/-! ### Equations for the load-start functions -/

theorem start_background_spawn {s : App} {p : String}
    (h1 : p ∉ s.loading_images) (h2 : s.image_picker = true) :
    start_background_image_load p s =
      { s with
        failed_images := removePath s.failed_images p
        loaded_images := removePath s.loaded_images p
        loading_images := insertPath s.loading_images p
        requests := s.requests ++ [(p, Tier.normal)] } := by
  unfold start_background_image_load
  rw [if_neg h1, if_neg (by simp [h2])]

theorem start_background_noop {s : App} {p : String}
    (h : p ∈ s.loading_images ∨ s.image_picker = false) :
    start_background_image_load p s = s := by
  unfold start_background_image_load
  rcases h with h | h
  · rw [if_pos h]
  · by_cases h1 : p ∈ s.loading_images
    · rw [if_pos h1]
    · rw [if_neg h1, if_pos h]

theorem start_priority_spawn {s : App} {p : String}
    (h1 : p ∉ s.loading_images) (h2 : s.image_picker = true) :
    start_priority_image_load p s =
      { s with
        failed_images := removePath s.failed_images p
        loading_images := insertPath s.loading_images p
        requests := s.requests ++ [(p, Tier.priority)] } := by
  unfold start_priority_image_load
  rw [if_neg h1, if_neg (by simp [h2])]

theorem start_priority_noop {s : App} {p : String}
    (h : p ∈ s.loading_images ∨ s.image_picker = false) :
    start_priority_image_load p s = s := by
  unfold start_priority_image_load
  rcases h with h | h
  · rw [if_pos h]
  · by_cases h1 : p ∈ s.loading_images
    · rw [if_pos h1]
    · rw [if_neg h1, if_pos h]

theorem start_background_loading {s : App} (p : String) :
    (start_background_image_load p s).loading_images = s.loading_images ∨
    (start_background_image_load p s).loading_images = insertPath s.loading_images p := by
  unfold start_background_image_load
  split_ifs <;> simp

theorem start_background_requests {s : App} (p : String) :
    (start_background_image_load p s).requests = s.requests ∨
    (start_background_image_load p s).requests = s.requests ++ [(p, Tier.normal)] := by
  unfold start_background_image_load
  split_ifs <;> simp

/-! ### Lemmas about the preloader loop -/

theorem preloadLoop_loading {s : App} (dir : String) (l : List Nat) :
    (preloadLoop dir s l).loading_images = s.loading_images ∨
    ∃ p, (preloadLoop dir s l).loading_images = insertPath s.loading_images p := by
  induction l with
  | nil => exact Or.inl rfl
  | cons i rest ih =>
    unfold preloadLoop
    dsimp only
    split_ifs
    · rcases start_background_loading (s := s) (joinPath dir (s.files.getD i "")) with h | h
      · exact Or.inl h
      · exact Or.inr ⟨_, h⟩
    · exact ih
    · exact ih
    · exact ih

theorem preloadLoop_requests {s : App} (dir : String) (l : List Nat) :
    (preloadLoop dir s l).requests = s.requests ∨
    ∃ p, (preloadLoop dir s l).requests = s.requests ++ [(p, Tier.normal)] := by
  induction l with
  | nil => exact Or.inl rfl
  | cons i rest ih =>
    unfold preloadLoop
    dsimp only
    split_ifs
    · rcases start_background_requests (s := s) (joinPath dir (s.files.getD i "")) with h | h
      · exact Or.inl h
      · exact Or.inr ⟨_, h⟩
    · exact ih
    · exact ih
    · exact ih

theorem preloadLoop_preserves {s : App} (dir : String) (l : List Nat) :
    (preloadLoop dir s l).failed_images = s.failed_images ∧
    (preloadLoop dir s l).loaded_images = s.loaded_images ∧
    (preloadLoop dir s l).files = s.files ∧
    (preloadLoop dir s l).pending_current_load = s.pending_current_load := by
  induction l with
  | nil => exact ⟨rfl, rfl, rfl, rfl⟩
  | cons i rest ih =>
    unfold preloadLoop
    dsimp only
    split_ifs with h1 h2 h3
    · unfold start_background_image_load
      split_ifs
      · exact ⟨rfl, rfl, rfl, rfl⟩
      · exact ⟨rfl, rfl, rfl, rfl⟩
      · exact ⟨removePath_of_not_mem h3.2.1, removePath_of_not_mem h3.2.2.1, rfl, rfl⟩
    · exact ih
    · exact ih
    · exact ih

/-! ### Branch lemmas for the selection controller (C3) -/

theorem files_ne_of_lt {s : App} (hlt : s.selected < s.files.length) :
    s.files ≠ [] := by
  intro h0
  rw [h0] at hlt
  simp at hlt

theorem c3aux_priority {s : App} (meta : String → String → String) (dir : String)
    (hchg : ¬ s.selected = s.previous_selected) (hlt : s.selected < s.files.length)
    (himg : is_image_file (joinPath dir (s.files.getD s.selected "")) = true)
    (hpk : s.image_picker = true)
    (hld : joinPath dir (s.files.getD s.selected "") ∈ s.loaded_images)
    (hnl : joinPath dir (s.files.getD s.selected "") ∉ s.loading_images) :
    (update_selection meta dir s).requests =
      s.requests ++ [(joinPath dir (s.files.getD s.selected ""), Tier.priority)] ∧
    joinPath dir (s.files.getD s.selected "") ∈ (update_selection meta dir s).loaded_images := by
  unfold update_selection
  try dsimp only
  set p := joinPath dir (s.files.getD s.selected "") with hp
  rw [if_neg hchg, if_pos ⟨files_ne_of_lt hlt, hlt⟩, if_pos himg]
  by_cases hclear : s.last_loaded_path ≠ some p ∨ p ∉ s.loaded_images
  · rw [if_pos hclear]
    try dsimp only
    rw [if_pos hld, if_pos hnl]
    unfold start_priority_image_load
    try dsimp only
    rw [if_neg hnl, if_neg (by simp [hpk])]
    exact ⟨rfl, hld⟩
  · rw [if_neg hclear]
    try dsimp only
    rw [if_pos hld, if_pos hnl]
    unfold start_priority_image_load
    try dsimp only
    rw [if_neg hnl, if_neg (by simp [hpk])]
    exact ⟨rfl, hld⟩

theorem c3aux_normal {s : App} (meta : String → String → String) (dir : String)
    (hchg : ¬ s.selected = s.previous_selected) (hlt : s.selected < s.files.length)
    (himg : is_image_file (joinPath dir (s.files.getD s.selected "")) = true)
    (hpk : s.image_picker = true)
    (hnld : joinPath dir (s.files.getD s.selected "") ∉ s.loaded_images)
    (hnl : joinPath dir (s.files.getD s.selected "") ∉ s.loading_images)
    (hnf : joinPath dir (s.files.getD s.selected "") ∉ s.failed_images) :
    (update_selection meta dir s).requests =
      s.requests ++ [(joinPath dir (s.files.getD s.selected ""), Tier.normal)] ∧
    (update_selection meta dir s).pending_current_load =
      some (joinPath dir (s.files.getD s.selected "")) := by
  unfold update_selection
  try dsimp only
  set p := joinPath dir (s.files.getD s.selected "") with hp
  rw [if_neg hchg, if_pos ⟨files_ne_of_lt hlt, hlt⟩, if_pos himg,
    if_pos (Or.inr hnld)]
  try dsimp only
  rw [if_neg hnld, if_pos ⟨hnl, hnf⟩]
  unfold start_background_image_load
  try dsimp only
  rw [if_neg hnl, if_neg (by simp [hpk])]
  exact ⟨rfl, rfl⟩

theorem c3aux_retry {s : App} (meta : String → String → String) (dir : String)
    (hchg : ¬ s.selected = s.previous_selected) (hlt : s.selected < s.files.length)
    (himg : is_image_file (joinPath dir (s.files.getD s.selected "")) = true)
    (hpk : s.image_picker = true) (hex : LoadingFailedExclusive s)
    (hnld : joinPath dir (s.files.getD s.selected "") ∉ s.loaded_images)
    (hf : joinPath dir (s.files.getD s.selected "") ∈ s.failed_images) :
    joinPath dir (s.files.getD s.selected "") ∉ (update_selection meta dir s).failed_images ∧
    (update_selection meta dir s).requests =
      s.requests ++ [(joinPath dir (s.files.getD s.selected ""), Tier.normal)] ∧
    (update_selection meta dir s).pending_current_load =
      some (joinPath dir (s.files.getD s.selected "")) := by
  unfold update_selection
  try dsimp only
  set p := joinPath dir (s.files.getD s.selected "") with hp
  have hnl : p ∉ s.loading_images := fun hl => hex p hl hf
  rw [if_neg hchg, if_pos ⟨files_ne_of_lt hlt, hlt⟩, if_pos himg,
    if_pos (Or.inr hnld)]
  try dsimp only
  rw [if_neg hnld, if_neg (fun hc => hc.2 hf), if_pos hf]
  try dsimp only
  rw [if_pos hnl]
  unfold start_background_image_load
  try dsimp only
  rw [if_neg hnl, if_neg (by simp [hpk])]
  refine ⟨?_, rfl, rfl⟩
  simp [mem_removePath]

theorem c3aux_noop {s : App} (meta : String → String → String) (dir : String)
    (hchg : ¬ s.selected = s.previous_selected) (hlt : s.selected < s.files.length)
    (himg : is_image_file (joinPath dir (s.files.getD s.selected "")) = true)
    (hl : joinPath dir (s.files.getD s.selected "") ∈ s.loading_images)
    (hnf : joinPath dir (s.files.getD s.selected "") ∉ s.failed_images) :
    (update_selection meta dir s).requests = s.requests := by
  unfold update_selection
  try dsimp only
  set p := joinPath dir (s.files.getD s.selected "") with hp
  rw [if_neg hchg, if_pos ⟨files_ne_of_lt hlt, hlt⟩, if_pos himg]
  by_cases hld : p ∈ s.loaded_images
  · by_cases hclear : s.last_loaded_path ≠ some p ∨ p ∉ s.loaded_images
    · rw [if_pos hclear]
      try dsimp only
      rw [if_pos hld, if_neg (not_not_intro hl)]
    · rw [if_neg hclear]
      try dsimp only
      rw [if_pos hld, if_neg (not_not_intro hl)]
  · rw [if_pos (Or.inr hld)]
    try dsimp only
    rw [if_neg hld, if_neg (fun hc => hc.1 hl), if_neg hnf]

theorem preloadLoop_requests_eq {s : App} (dir : String)
    (hpk : s.image_picker = true) (hcap : s.loading_images.length < 2)
    (l : List Nat) :
    (preloadLoop dir s l).requests =
      s.requests ++ (match firstEligibleAux dir s l with
        | some p => [(p, Tier.normal)]
        | none => []) := by
  induction l with
  | nil => simp [preloadLoop, firstEligibleAux]
  | cons i rest ih =>
    unfold preloadLoop firstEligibleAux
    dsimp only
    by_cases hi : i ≠ s.selected
    · rw [if_pos hi, if_pos hi]
      by_cases him : is_image_file (joinPath dir (s.files.getD i "")) = true
      · by_cases hel : joinPath dir (s.files.getD i "") ∉ s.loading_images ∧
            joinPath dir (s.files.getD i "") ∉ s.failed_images ∧
            joinPath dir (s.files.getD i "") ∉ s.loaded_images
        · rw [if_pos him, if_pos ⟨hel.1, hel.2.1, hel.2.2, hcap⟩,
            if_pos ⟨him, hel.1, hel.2.1, hel.2.2⟩,
            start_background_spawn hel.1 hpk]
        · rw [if_pos him, if_neg (fun hc => hel ⟨hc.1, hc.2.1, hc.2.2.1⟩),
            if_neg (fun hc => hel ⟨hc.2.1, hc.2.2.1, hc.2.2.2⟩)]
          exact ih
      · rw [if_neg him, if_neg (fun hc => him hc.1)]
        exact ih
    · rw [if_neg hi, if_neg hi]
      exact ih

/-! ### Claim theorems -/

/-- C1 counterexample: in Scenario C itself (selection moves 0 → 1 → 2 → 3
across four consecutive frames with no decode completing), four paths sit
in Loading simultaneously after the fourth frame, so the Loading count
exceeds the concurrency cap of 2 at an observable instant. -/
theorem c1_scenario_c_counterexample :
    scenarioCRun.loading_images = ["d/d.jpg", "d/c.jpg", "d/b.jpg", "d/a.jpg"] ∧
    ¬ scenarioCRun.loading_images.length ≤ 2 := by
  decide

/-- C1 (amended): the concurrency cap of 2 is enforced only by the
preloader — one invocation of `App::preload_nearby_images` never raises
the Loading count above 2 (it never raises it above the maximum of its
current value and 2). Selection-controller loads are not subject to the
cap, so consecutive selection changes can push the Loading count past 2. -/
theorem c1_preloader_respects_cap (dir : String) (s : App) :
    (preload_nearby_images dir s).loading_images.length ≤
      max s.loading_images.length 2 := by
  by_cases hcap : 2 ≤ s.loading_images.length
  · unfold preload_nearby_images
    dsimp only
    split_ifs <;> exact le_max_left _ _
  · have key : (preloadLoop dir s (windowIndices s)).loading_images.length ≤
        max s.loading_images.length 2 := by
      rcases preloadLoop_loading (s := s) dir (windowIndices s) with h | ⟨p, h⟩
      · rw [h]
        exact le_max_left _ _
      · rw [h]
        have h1 := length_insertPath_le (l := s.loading_images) (p := p)
        have h2 : s.loading_images.length + 1 ≤ 2 := by omega
        exact le_trans (le_trans h1 h2) (le_max_right _ _)
    unfold preload_nearby_images
    dsimp only
    split_ifs <;> first | exact le_max_left _ _ | exact key

/-- C2: per drained event, a success for path p inserts p into Loaded,
removes p from Loading and records p as the last-displayed path, and
installs the handle and clears the pending-current marker exactly when p
is the currently selected path; a failure for p inserts p into Failed,
removes p from Loading, never touches the handle, and clears the
pending-current marker exactly when p is the currently selected path. -/
theorem c2_event_drain_semantics (s : App) (p : String) (h : Nat) (e : String) :
    ((processOneEvent s (ImageLoadEvent.loadComplete p h)).loaded_images =
        insertPath s.loaded_images p ∧
      (processOneEvent s (ImageLoadEvent.loadComplete p h)).loading_images =
        removePath s.loading_images p ∧
      (processOneEvent s (ImageLoadEvent.loadComplete p h)).last_loaded_path = some p ∧
      (s.image_path = some p →
        (processOneEvent s (ImageLoadEvent.loadComplete p h)).image_state = some h ∧
        (processOneEvent s (ImageLoadEvent.loadComplete p h)).pending_current_load = none) ∧
      (s.image_path ≠ some p →
        (processOneEvent s (ImageLoadEvent.loadComplete p h)).image_state = s.image_state ∧
        (processOneEvent s (ImageLoadEvent.loadComplete p h)).pending_current_load =
          s.pending_current_load)) ∧
    ((processOneEvent s (ImageLoadEvent.loadError p e)).failed_images =
        insertPath s.failed_images p ∧
      (processOneEvent s (ImageLoadEvent.loadError p e)).loading_images =
        removePath s.loading_images p ∧
      (processOneEvent s (ImageLoadEvent.loadError p e)).image_state = s.image_state ∧
      (s.image_path = some p →
        (processOneEvent s (ImageLoadEvent.loadError p e)).pending_current_load = none) ∧
      (s.image_path ≠ some p →
        (processOneEvent s (ImageLoadEvent.loadError p e)).pending_current_load =
          s.pending_current_load)) := by
  by_cases hcur : s.image_path = some p <;>
    simp [processOneEvent, hcur]

/-- C2 witness: the success event for the selected path d/b.jpg of the
demo state installs the handle and clears the pending-current marker. -/
theorem c2_event_drain_witness :
    (processOneEvent demoApp (ImageLoadEvent.loadComplete "d/b.jpg" 7)).image_state =
        some 7 ∧
    (processOneEvent demoApp (ImageLoadEvent.loadComplete "d/b.jpg" 7)).pending_current_load =
        none :=
  (c2_event_drain_semantics demoApp "d/b.jpg" 7 "oops").1.2.2.2.1 rfl

/-- C3: when the selection changes to an image path p (with the graphics
capability available and the Loading/Failed exclusion invariant holding),
the load decision follows the claimed order: p ∈ Loaded and p ∉ Loading
issues a Priority request and keeps p in Loaded; otherwise p in neither
Loading nor Failed issues a Normal request and marks p pending-current;
otherwise p ∈ Failed removes p from Failed, issues a Normal request and
marks p pending-current; otherwise (p still in Loading) no request is
issued. -/
theorem c3_selection_load_policy (s : App) (meta : String → String → String)
    (dir : String)
    (hchg : ¬ s.selected = s.previous_selected) (hlt : s.selected < s.files.length)
    (himg : is_image_file (joinPath dir (s.files.getD s.selected "")) = true)
    (hpk : s.image_picker = true) (hex : LoadingFailedExclusive s) :
    (joinPath dir (s.files.getD s.selected "") ∈ s.loaded_images ∧
        joinPath dir (s.files.getD s.selected "") ∉ s.loading_images →
      (update_selection meta dir s).requests =
        s.requests ++ [(joinPath dir (s.files.getD s.selected ""), Tier.priority)] ∧
      joinPath dir (s.files.getD s.selected "") ∈
        (update_selection meta dir s).loaded_images) ∧
    (¬ (joinPath dir (s.files.getD s.selected "") ∈ s.loaded_images ∧
        joinPath dir (s.files.getD s.selected "") ∉ s.loading_images) →
      joinPath dir (s.files.getD s.selected "") ∉ s.loading_images ∧
        joinPath dir (s.files.getD s.selected "") ∉ s.failed_images →
      (update_selection meta dir s).requests =
        s.requests ++ [(joinPath dir (s.files.getD s.selected ""), Tier.normal)] ∧
      (update_selection meta dir s).pending_current_load =
        some (joinPath dir (s.files.getD s.selected ""))) ∧
    (¬ (joinPath dir (s.files.getD s.selected "") ∈ s.loaded_images ∧
        joinPath dir (s.files.getD s.selected "") ∉ s.loading_images) →
      ¬ (joinPath dir (s.files.getD s.selected "") ∉ s.loading_images ∧
        joinPath dir (s.files.getD s.selected "") ∉ s.failed_images) →
      joinPath dir (s.files.getD s.selected "") ∈ s.failed_images →
      joinPath dir (s.files.getD s.selected "") ∉
        (update_selection meta dir s).failed_images ∧
      (update_selection meta dir s).requests =
        s.requests ++ [(joinPath dir (s.files.getD s.selected ""), Tier.normal)] ∧
      (update_selection meta dir s).pending_current_load =
        some (joinPath dir (s.files.getD s.selected ""))) ∧
    (¬ (joinPath dir (s.files.getD s.selected "") ∈ s.loaded_images ∧
        joinPath dir (s.files.getD s.selected "") ∉ s.loading_images) →
      ¬ (joinPath dir (s.files.getD s.selected "") ∉ s.loading_images ∧
        joinPath dir (s.files.getD s.selected "") ∉ s.failed_images) →
      joinPath dir (s.files.getD s.selected "") ∉ s.failed_images →
      (update_selection meta dir s).requests = s.requests) := by
  set p := joinPath dir (s.files.getD s.selected "") with hp
  refine ⟨?_, ?_, ?_, ?_⟩
  · rintro ⟨hld, hnl⟩
    exact c3aux_priority meta dir hchg hlt himg hpk hld hnl
  · rintro hnA ⟨hnl, hnf⟩
    have hnld : p ∉ s.loaded_images := fun hld => hnA ⟨hld, hnl⟩
    exact c3aux_normal meta dir hchg hlt himg hpk hnld hnl hnf
  · intro hnA hnB hf
    have hnl : p ∉ s.loading_images := fun hl => hex p hl hf
    have hnld : p ∉ s.loaded_images := fun hld => hnA ⟨hld, hnl⟩
    exact c3aux_retry meta dir hchg hlt himg hpk hex hnld hf
  · intro hnA hnB hnf
    have hl : p ∈ s.loading_images := by
      by_contra hnl
      exact hnB ⟨hnl, hnf⟩
    exact c3aux_noop meta dir hchg hlt himg hl hnf

/-- C3 witness: in the demo state, moving the selection to the cached
path d/a.jpg issues exactly one Priority request and keeps d/a.jpg in
Loaded. -/
theorem c3_selection_load_policy_witness :
    (update_selection (fun _ _ => "") "d" demoApp).requests =
      demoApp.requests ++ [("d/a.jpg", Tier.priority)] ∧
    "d/a.jpg" ∈ (update_selection (fun _ _ => "") "d" demoApp).loaded_images :=
  (c3_selection_load_policy demoApp (fun _ _ => "") "d" (by decide) (by decide)
    (by decide) (by decide) (by decide)).1 (by decide)

/-- C4: the mutual exclusion of Loading and Failed membership is
preserved by every operation of the render loop — the event drain over
any event list, the selection controller, the preloader, and both load
starts. -/
theorem c4_loading_failed_exclusive (s : App) (hex : LoadingFailedExclusive s) :
    (∀ evs : List ImageLoadEvent,
      LoadingFailedExclusive (process_image_load_events s evs)) ∧
    (∀ (meta : String → String → String) (dir : String),
      LoadingFailedExclusive (update_selection meta dir s)) ∧
    (∀ dir : String, LoadingFailedExclusive (preload_nearby_images dir s)) ∧
    (∀ p : String, LoadingFailedExclusive (start_background_image_load p s)) ∧
    (∀ p : String, LoadingFailedExclusive (start_priority_image_load p s)) :=
  ⟨fun evs => exclusive_process_events hex evs,
   fun meta dir => exclusive_update_selection hex meta dir,
   fun dir => exclusive_preload hex dir,
   fun p => exclusive_start_background hex p,
   fun p => exclusive_start_priority hex p⟩

/-- C4 witness: the demo state satisfies the exclusion invariant, and it
still holds after a selection-controller step on it. -/
theorem c4_loading_failed_exclusive_witness :
    LoadingFailedExclusive (update_selection (fun _ _ => "") "d" demoApp) :=
  (c4_loading_failed_exclusive demoApp (by decide)).2.1 (fun _ _ => "") "d"

/-- C5: when the selection changes to an image path p, the active handle
survives exactly when p equals the last-displayed path and p is in
Loaded; in every other case it is cleared to empty. In particular, on a
revisit of a last-displayed Loaded path the handle is never cleared
during the Priority refresh. -/
theorem c5_handle_clear_policy (s : App) (meta : String → String → String)
    (dir : String)
    (hchg : ¬ s.selected = s.previous_selected) (hlt : s.selected < s.files.length)
    (himg : is_image_file (joinPath dir (s.files.getD s.selected "")) = true) :
    (update_selection meta dir s).image_state =
      if s.last_loaded_path = some (joinPath dir (s.files.getD s.selected "")) ∧
          joinPath dir (s.files.getD s.selected "") ∈ s.loaded_images
      then s.image_state else none := by
  unfold update_selection
  dsimp only
  set p := joinPath dir (s.files.getD s.selected "") with hp
  rw [if_neg hchg, if_pos ⟨files_ne_of_lt hlt, hlt⟩, if_pos himg]
  by_cases hc : s.last_loaded_path = some p ∧ p ∈ s.loaded_images
  · have hnc : ¬ (s.last_loaded_path ≠ some p ∨ p ∉ s.loaded_images) := by
      push_neg
      exact hc
    rw [if_pos hc, if_neg hnc]
    unfold start_priority_image_load start_background_image_load
    dsimp only
    split_ifs <;> rfl
  · have hyc : s.last_loaded_path ≠ some p ∨ p ∉ s.loaded_images := by tauto
    rw [if_neg hc, if_pos hyc]
    unfold start_priority_image_load start_background_image_load
    dsimp only
    split_ifs <;> rfl

/-- C5 witness: revisiting d/a.jpg — the last-displayed path, still in
Loaded — leaves the active handle of the demo state untouched. -/
theorem c5_handle_clear_policy_witness :
    (update_selection (fun _ _ => "") "d"
        { demoApp with image_state := some 3 }).image_state = some 3 := by
  have h := c5_handle_clear_policy { demoApp with image_state := some 3 }
    (fun _ _ => "") "d" (by decide) (by decide) (by decide)
  rw [h]
  decide

/-- C6: the status exposed to the renderer is computed from current state
exactly in the spec's precedence order for the selected path: NotImage,
UnsupportedTerminal, Loading, Failed, Loaded, and Loading as the default. -/
theorem c6_status_derivation (s : App) (p : String) (h : s.image_path = some p) :
    get_image_load_status s = statusSpec s p := by
  unfold get_image_load_status statusSpec
  rw [h]
  by_cases him : is_image_file p = true <;>
    by_cases hpk : s.image_picker = true <;>
      simp [him, hpk]

/-- C6 witness: the demo state reports Loading for its selected path
d/b.jpg, matching the spec-side derivation. -/
theorem c6_status_derivation_witness :
    get_image_load_status demoApp = statusSpec demoApp "d/b.jpg" :=
  c6_status_derivation demoApp "d/b.jpg" rfl

/-- C7 counterexample: with files x.jpg, a.txt, b.jpg and selection 0,
empty tracking sets and no pending-current load, the first window path in
none of Loading, Failed, Loaded is d/a.txt, yet the preloader issues its
single Normal request for d/b.jpg — the claim names the wrong path
because it omits the image-type filter of the scan. -/
theorem c7_preloader_counterexample :
    firstWindowPathNotInSets "d" c7App = some "d/a.txt" ∧
    (preload_nearby_images "d" c7App).requests = [("d/b.jpg", Tier.normal)] ∧
    some "d/b.jpg" ≠ some "d/a.txt" := by
  decide

/-- C7 (amended): the preloader is skipped entirely while a
pending-current load is outstanding; it issues at most one new request
per invocation; and when it runs under the concurrency cap with the
graphics capability available, the request it issues (if any) is a Normal
request for the first image-type path in the window that is in none of
Loading, Failed, or Loaded. -/
theorem c7_preloader_amended (dir : String) (s : App) :
    (s.pending_current_load.isSome → preload_nearby_images dir s = s) ∧
    (preload_nearby_images dir s).requests.length ≤ s.requests.length + 1 ∧
    (s.pending_current_load = none → s.files ≠ [] → s.image_picker = true →
      s.loading_images.length < 2 →
      (preload_nearby_images dir s).requests =
        s.requests ++ (match firstEligibleImagePath dir s with
          | some p => [(p, Tier.normal)]
          | none => [])) := by
  refine ⟨?_, ?_, ?_⟩
  · intro hpend
    unfold preload_nearby_images
    by_cases hf : s.files = []
    · rw [if_pos hf]
    · rw [if_neg hf, if_pos hpend]
  · have key : (preloadLoop dir s (windowIndices s)).requests.length ≤
        s.requests.length + 1 := by
      rcases preloadLoop_requests (s := s) dir (windowIndices s) with h | ⟨q, h⟩ <;>
        simp [h]
    unfold preload_nearby_images
    dsimp only
    split_ifs <;> first | omega | exact key
  · intro hpend hf hpk hcap
    unfold preload_nearby_images
    rw [if_neg hf, if_neg (by simp [hpend]), if_neg (by omega)]
    dsimp only
    split_ifs <;> exact preloadLoop_requests_eq dir hpk hcap (windowIndices s)

/-- C7 witness: in the counterexample directory the amended statement
holds — the single issued request is the Normal request for the first
eligible image path d/b.jpg. -/
theorem c7_preloader_amended_witness :
    (preload_nearby_images "d" c7App).requests =
      c7App.requests ++ [("d/b.jpg", Tier.normal)] := by
  have h := (c7_preloader_amended "d" c7App).2.2 rfl (by decide) rfl (by decide)
  rw [h]
  decide

/-- C8 counterexample: Failed holds 21 entries (more than 20), but the
next preloader pass returns at the concurrency-cap check (two loads in
flight) and leaves Failed untouched instead of emptying it. -/
theorem c8_eviction_counterexample :
    20 < c8App.failed_images.length ∧
    (preload_nearby_images "d" c8App).failed_images ≠ [] := by
  decide

/-- C8 (amended): a preloader pass that reaches cache maintenance — file
list nonempty, no pending-current load outstanding, and fewer than 2
loads in flight — empties Failed whenever it holds more than 20 entries,
and whenever Loaded holds more than 50 entries retains in Loaded exactly
the paths present in the current directory listing. -/
theorem c8_eviction_amended (dir : String) (s : App)
    (hf : s.files ≠ []) (hpend : s.pending_current_load = none)
    (hcap : s.loading_images.length < 2) :
    (20 < s.failed_images.length →
      (preload_nearby_images dir s).failed_images = []) ∧
    (50 < s.loaded_images.length →
      (preload_nearby_images dir s).loaded_images =
        s.loaded_images.filter (fun p => decide (p ∈ s.files.map (joinPath dir)))) := by
  have hpres := preloadLoop_preserves (s := s) dir (windowIndices s)
  have hnp : ¬ s.pending_current_load.isSome = true := by simp [hpend]
  have hnc : ¬ 2 ≤ s.loading_images.length := by omega
  unfold preload_nearby_images
  rw [if_neg hf, if_neg hnp, if_neg hnc]
  dsimp only
  constructor
  · intro h20
    have hc20 : 20 < (preloadLoop dir s (windowIndices s)).failed_images.length := by
      rw [hpres.1]
      exact h20
    rw [if_pos hc20]
    split_ifs <;> rfl
  · intro h50
    have key : ∀ X : App, X.loaded_images = s.loaded_images → X.files = s.files →
        (if 50 < X.loaded_images.length then
          { X with
            loaded_images :=
              X.loaded_images.filter (fun p => decide (p ∈ X.files.map (joinPath dir))) }
         else X).loaded_images =
        s.loaded_images.filter (fun p => decide (p ∈ s.files.map (joinPath dir))) := by
      intro X hXl hXf
      have hc50 : 50 < X.loaded_images.length := by
        rw [hXl]
        exact h50
      rw [if_pos hc50]
      dsimp only
      rw [hXl, hXf]
    refine key _ ?_ ?_
    · split_ifs
      · exact hpres.2.1
      · exact hpres.2.1
    · split_ifs
      · exact hpres.2.2.1
      · exact hpres.2.2.1

/-- C8 witness: a state over the limits that does reach maintenance —
one loading slot free, 21 failed entries, 51 loaded entries of which only
d/a.jpg is still listed — ends the pass with Failed empty and Loaded
pruned to the listing. -/
theorem c8_eviction_amended_witness :
    (preload_nearby_images "d" c8ReachableApp).failed_images = [] ∧
    (preload_nearby_images "d" c8ReachableApp).loaded_images = ["d/a.jpg"] := by
  have h := c8_eviction_amended "d" c8ReachableApp (by decide) rfl (by decide)
  refine ⟨h.1 (by decide), ?_⟩
  rw [h.2 (by decide)]
  decide

/-- C9: the claim is the stated intent — and the explicit restore on the
terminal-construction failure and at both loop exits shows it is the
code's intent too — but a failing `terminal.draw(..)?` inside the browser
loop propagates its error without running the cleanup: raw mode stays
enabled and the alternate screen stays active on that exit path. The
quit exit and the terminal-construction failure exit do restore both. -/
theorem c9_draw_error_skips_restore :
    ratatui_run true true [FrameOutcome.drawErr] =
      (some RunResult.err, { raw := true, alt := true }) ∧
    ratatui_run true true [FrameOutcome.uneventful, FrameOutcome.keyQuit] =
      (some RunResult.ok, { raw := false, alt := false }) ∧
    ratatui_run true false [] =
      (some RunResult.err, { raw := false, alt := false }) := by
  decide

/-- C10: starting a Normal-tier load for a path p not in Loading (with
the capability available) removes p from Failed and from Loaded and
inserts p into Loading, while a Priority-tier start removes p only from
Failed and leaves Loaded intact; when p is already in Loading or no
capability is available, both starts leave the state completely
unchanged. -/
theorem c10_start_load_set_changes (s : App) (p : String) :
    (p ∉ s.loading_images → s.image_picker = true →
      (start_background_image_load p s).failed_images = removePath s.failed_images p ∧
      (start_background_image_load p s).loaded_images = removePath s.loaded_images p ∧
      (start_background_image_load p s).loading_images = insertPath s.loading_images p ∧
      (start_background_image_load p s).requests = s.requests ++ [(p, Tier.normal)] ∧
      (start_priority_image_load p s).failed_images = removePath s.failed_images p ∧
      (start_priority_image_load p s).loaded_images = s.loaded_images ∧
      (start_priority_image_load p s).loading_images = insertPath s.loading_images p ∧
      (start_priority_image_load p s).requests = s.requests ++ [(p, Tier.priority)]) ∧
    (p ∈ s.loading_images ∨ s.image_picker = false →
      start_background_image_load p s = s ∧ start_priority_image_load p s = s) := by
  constructor
  · intro h1 h2
    rw [start_background_spawn h1 h2, start_priority_spawn h1 h2]
    exact ⟨rfl, rfl, rfl, rfl, rfl, rfl, rfl, rfl⟩
  · intro h
    exact ⟨start_background_noop h, start_priority_noop h⟩

/-- C10 witness: in the demo state, a Normal start for the cached path
d/a.jpg evicts its Loaded entry, and a Normal start for the in-flight
path d/b.jpg changes nothing. -/
theorem c10_start_load_set_changes_witness :
    (start_background_image_load "d/a.jpg" demoApp).loaded_images =
      removePath demoApp.loaded_images "d/a.jpg" ∧
    start_background_image_load "d/b.jpg" demoApp = demoApp :=
  ⟨((c10_start_load_set_changes demoApp "d/a.jpg").1 (by decide) rfl).2.1,
   ((c10_start_load_set_changes demoApp "d/b.jpg").2 (Or.inl (by decide))).1⟩

end Medars
